import Mathlib

set_option maxHeartbeats 1000000

namespace StockIQ

/-! # Shallow embedding of the StockIQ core pipeline

Definitions are translated from the repository sources
(`ai/file_validator.py`, `ai/data_sufficiency.py`, `ai/structure_inference.py`,
`ai/demand_forecast.py`, `ai/expiry_risk.py`, `ai/decision_engine.py`).

Modelling conventions:
* pandas cell values are modelled by `Cell`; a cell records the result of
  `pd.to_numeric(..., errors="coerce")` (`num`), of
  `pd.to_datetime(..., errors="coerce")` (`date`), and its `str()` text;
* Python floats are modelled by `ℚ` (the literals `0.3` and `1.2` become
  `3/10` and `6/5`; float rounding error at exact threshold multiples is
  outside the model);
* the regular expressions used by the sources are all of the shape
  `\bw1[_\s]?w2...\b` (with an optional trailing `\b`), so they are run by a
  small word-boundary matcher rather than a general regex engine;
* fallible Python code (exceptions) is modelled with `Option`/`Except`.
-/

/-- Word characters for the regex `\b` boundary rule (`[A-Za-z0-9_]`). -/
def isWordChar (c : Char) : Bool := c.isAlphanum || c == '_'

/-- Characters accepted by the optional separator class `[_\s]` used in the
column-name patterns. -/
def isSepChar (c : Char) : Bool := c == '_' || c.isWhitespace

/-- Right word-boundary test at the start of the remaining text (only enforced
when the pattern ends with `\b`, signalled by `rb`). -/
def rightOk (rb : Bool) (s : List Char) : Bool :=
  !rb || (match s with | [] => true | c :: _ => !isWordChar c)

/-- Match the word segments of a pattern, separated by at most one separator
character, at the head of the text; enforce a trailing boundary when `rb`. -/
def matchSegs (segs : List (List Char)) (rb : Bool) (s : List Char) : Bool :=
  match segs with
  | [] => rightOk rb s
  | seg :: rest =>
    seg.isPrefixOf s &&
    (let s' := s.drop seg.length
     match rest with
     | [] => rightOk rb s'
     | _ :: _ =>
       matchSegs rest rb s' ||
       (match s' with
        | c :: s'' => isSepChar c && matchSegs rest rb s''
        | [] => false))

/-- Scan every position of the text for a left-boundary-anchored match
(the model of `re.search` for the patterns at hand). -/
def searchFrom (prevWord : Bool) (segs : List (List Char)) (rb : Bool)
    (s : List Char) : Bool :=
  (!prevWord && matchSegs segs rb s) ||
  (match s with
   | [] => false
   | c :: rest => searchFrom (isWordChar c) segs rb rest)

/-- A source pattern `\bw1[_\s]?w2...` : the word segments plus whether the
pattern ends with a trailing `\b`. -/
abbrev Pat := List String × Bool

/-- Lower-case a string into a character list (`str.lower()` /
`re.IGNORECASE`; the patterns themselves are all lower case). -/
def strLower (s : String) : List Char := s.data.map Char.toLower

/-- Lower-case a string into a string. -/
def strLowerS (s : String) : String := String.mk (strLower s)

/-- Run one pattern against a (already lower-cased) text. -/
def matchPat (p : Pat) (text : List Char) : Bool :=
  searchFrom false (p.1.map String.data) p.2 text

/-- Run a pattern list against a text (any match wins). -/
def anyPat (ps : List Pat) (text : List Char) : Bool :=
  ps.any (fun p => matchPat p text)

/-- A single word pattern `\bw\b`. -/
def pat1 (w : String) : Pat := ([w], true)

/-- A two-word pattern `\ba[_\s]?b\b`. -/
def pat2 (a b : String) : Pat := ([a, b], true)

/-- A prefix pattern `\bw` with no trailing boundary. -/
def patPre (w : String) : Pat := ([w], false)

/-! ## Cells and data frames -/

/-- A pandas cell: either missing (`NaN`) or a value carrying the outcome of
numeric coercion, of datetime coercion, and its string form. -/
inductive Cell where
  | null : Cell
  | val (num : Option ℚ) (date : Option Int) (txt : String) : Cell
deriving DecidableEq

/-- `pd.to_numeric(cell, errors="coerce")`. -/
def Cell.toNum : Cell → Option ℚ
  | .null => none
  | .val n _ _ => n

/-- `pd.to_datetime(cell, errors="coerce")` (timestamps as integers). -/
def Cell.toDate : Cell → Option Int
  | .null => none
  | .val _ d _ => d

/-- Whether the cell is missing (dropped by `dropna`). -/
def Cell.isNull : Cell → Bool
  | .null => true
  | .val _ _ _ => false

/-- `str(cell)` (pandas prints a missing value as `nan`). -/
def Cell.pyStr : Cell → String
  | .null => "nan"
  | .val _ _ t => t

/-- Pandas `==` comparison between cells: a missing value compares unequal to
everything, including another missing value. -/
def Cell.pyEq (a b : Cell) : Bool :=
  !a.isNull && !b.isNull && a == b

/-- A decoded table: ordered column labels plus rows of cells. -/
structure DataFrame where
  colNames : List String
  rows : List (List Cell)
deriving DecidableEq

/-- Number of rows (`len(df)`). -/
def DataFrame.nrows (df : DataFrame) : Nat := df.rows.length

/-- Index of a column label (first occurrence). -/
def idxOf : String → List String → Option Nat
  | _, [] => none
  | name, c :: rest =>
    if c = name then some 0 else (idxOf name rest).map (· + 1)

/-- `df[name]` as a cell list (empty when the label is absent). -/
def DataFrame.col (df : DataFrame) (name : String) : List Cell :=
  match idxOf name df.colNames with
  | none => []
  | some i => df.rows.map (fun r => r.getD i Cell.null)

/-- `pd.to_numeric(df[name], errors="coerce").dropna()`. -/
def DataFrame.colNums (df : DataFrame) (name : String) : List ℚ :=
  (df.col name).filterMap Cell.toNum

/-- Order-preserving deduplication keeping first occurrences
(`pandas.unique`). -/
def uniqueAux [DecidableEq α] : List α → List α → List α
  | [], _ => []
  | x :: xs, seen =>
    if x ∈ seen then uniqueAux xs seen else x :: uniqueAux xs (x :: seen)

/-- `pandas.unique` over a list. -/
def uniqueList [DecidableEq α] (l : List α) : List α := uniqueAux l []

/-- Python `int()` on a rational: truncation toward zero. -/
def truncInt (q : ℚ) : Int := if 0 ≤ q then q.floor else q.ceil

/-- Python `round()` to an integer: round half to even. -/
def pythonRound (q : ℚ) : Int :=
  let f := q.floor
  let r := q - f
  if r < 1/2 then f
  else if 1/2 < r then f + 1
  else if f % 2 = 0 then f else f + 1

/-! ## Stage 1: `ai/file_validator.py` -/

namespace FileValidator

/-- `SIGNAL_PATTERNS["quantity"]`. -/
def quantitySignalPats : List Pat :=
  [pat1 "quantity", pat1 "qty", pat1 "units", pat1 "stock",
   pat1 "inventory", pat1 "sold", pat1 "sales", pat1 "available",
   pat2 "on" "hand", pat1 "count", pat1 "balance", pat2 "current" "stock"]

/-- `SIGNAL_PATTERNS["time"]`. -/
def timeSignalPats : List Pat :=
  [pat1 "date", pat1 "day", pat1 "month", pat1 "year", pat1 "period",
   pat2 "invoice" "date", pat2 "transaction" "date", pat1 "time",
   pat1 "timestamp", pat2 "order" "date", pat2 "sale" "date",
   pat2 "best" "before", patPre "expir"]

/-- `SIGNAL_PATTERNS["product"]`. -/
def productSignalPats : List Pat :=
  [pat1 "product", pat1 "item", pat1 "sku",
   pat2 "item" "id", pat2 "product" "id", pat2 "item" "code",
   pat1 "article", pat1 "barcode", pat1 "upc", pat1 "ean",
   pat2 "product" "name", pat2 "item" "name",
   pat1 "material", pat1 "goods", pat1 "commodity"]

/-- `REJECTION_PATTERNS`. -/
def rejectionPats : List Pat :=
  [pat1 "employee", pat1 "salary", pat1 "hr", (["human", "resource"], false),
   pat1 "payroll", pat2 "hire" "date", pat2 "job" "title",
   pat1 "resume", pat1 "candidate", pat1 "applicant"]

/-- The search text `text_content + " " + " ".join(columns)`, lower-cased
(the source compiles every pattern with `re.IGNORECASE`). -/
def searchText (text : String) (columns : List String) : List Char :=
  strLower (text ++ " " ++ String.intercalate " " columns)

/-- `detect_rejection_signals`. -/
def detect_rejection_signals (text : String) (columns : List String) : Bool :=
  rejectionPats.any (fun p => matchPat p (searchText text columns))

/-- The three signal-group flags returned by `detect_signals`. -/
structure Signals where
  quantity : Bool
  time : Bool
  product : Bool
deriving DecidableEq

/-- `sum(signals.values())`. -/
def Signals.total (s : Signals) : Nat :=
  (if s.quantity then 1 else 0) + (if s.time then 1 else 0) +
    (if s.product then 1 else 0)

/-- `detect_signals`. -/
def detect_signals (text : String) (columns : List String) : Signals :=
  let st := searchText text columns
  ⟨anyPat quantitySignalPats st, anyPat timeSignalPats st,
   anyPat productSignalPats st⟩

/-- Count of numeric (coercible) values in column `name`
(`pd.to_numeric(df[col], errors="coerce").notna().sum()`). -/
def numericCountCol (df : DataFrame) (name : String) : Nat :=
  (df.colNums name).length

/-- The numeric tokens matched by `re.findall(r"\b\d+(?:\.\d+)?\b", text)`:
split off the maximal leading digit run. -/
def takeDigits : List Char → List Char × List Char
  | [] => ([], [])
  | c :: r =>
    if c.isDigit then
      let p := takeDigits r
      (c :: p.1, p.2)
    else ([], c :: r)

/-- Right-boundary test for a numeric token. -/
def tokBoundary : List Char → Bool
  | [] => true
  | c :: _ => !isWordChar c

/-- Fueled scanner for the numeric tokens of
`re.findall(r"\b\d+(?:\.\d+)?\b", text)` (left-to-right, leftmost-longest
with regex backtracking on the optional fractional part). -/
def numTokensAux : Nat → Bool → List Char → List (List Char)
  | 0, _, _ => []
  | _ + 1, _, [] => []
  | fuel + 1, prevWord, c :: rest =>
    if !prevWord && c.isDigit then
      let p := takeDigits (c :: rest)
      match p.2 with
      | '.' :: r2 =>
        if (r2.headD ' ').isDigit then
          let p2 := takeDigits r2
          if tokBoundary p2.2 then
            (p.1 ++ '.' :: p2.1) :: numTokensAux fuel true p2.2
          else p.1 :: numTokensAux fuel true ('.' :: r2)
        else p.1 :: numTokensAux fuel true ('.' :: r2)
      | r1 =>
        if tokBoundary r1 then p.1 :: numTokensAux fuel true r1
        else numTokensAux fuel (isWordChar c) rest
    else numTokensAux fuel (isWordChar c) rest

/-- All numeric tokens of a text. -/
def numTokens (s : List Char) : List (List Char) :=
  numTokensAux s.length false s

/-- Result of `verify_numeric_data`. -/
structure NumericResult where
  has_numeric : Bool
  numeric_columns : List String
deriving DecidableEq

/-- `verify_numeric_data` (the float test `valid_count > len(df) * 0.3` is
modelled by the exact cross-multiplied form `3 * len(df) < 10 * valid_count`). -/
def verify_numeric_data (odf : Option DataFrame) (text : String) :
    NumericResult :=
  match odf with
  | some df =>
    let qnum := df.colNames.filter (fun c =>
      anyPat quantitySignalPats (strLower c) && 0 < numericCountCol df c)
    if qnum ≠ [] then ⟨true, qnum⟩
    else
      let fb := df.colNames.filter (fun c =>
        3 * df.nrows < 10 * numericCountCol df c)
      ⟨fb.length > 0, fb⟩
  | none => ⟨3 ≤ (numTokens text.data).length, []⟩

/-- `calculate_confidence`. -/
def calculate_confidence (s : Signals) (nr : NumericResult) : String :=
  if s.total = 3 && nr.has_numeric && 1 ≤ nr.numeric_columns.length then
    "high"
  else if 2 ≤ s.total && nr.has_numeric then "medium"
  else "low"

/-- `generate_explanation` (the dict iterates in insertion order:
quantity, time, product). -/
def generate_explanation (s : Signals) : String :=
  let names :=
    (if s.quantity then ["quantity/stock information"] else []) ++
    (if s.time then ["time/date references"] else []) ++
    (if s.product then ["product identifiers"] else [])
  match names with
  | [a, b, c] =>
    "File contains " ++ a ++ ", " ++ b ++ ", and " ++ c ++
      " suitable for inventory analysis."
  | [a, b] =>
    "File contains " ++ a ++ " and " ++ b ++
      " suitable for inventory analysis."
  | _ => "File appears to contain inventory or sales related data."

/-- `generate_rejection_reason`. -/
def generate_rejection_reason (s : Signals) (has_numeric : Bool) : String :=
  if !has_numeric then
    "No numeric quantity or sales data found. Please upload a file containing inventory or sales figures."
  else if !s.quantity && !s.time then
    "This document does not appear to be related to inventory or sales data. No quantity or time information found."
  else if !s.quantity then
    "This file does not contain quantity or sales information. Please upload an inventory or sales file."
  else if !s.time then
    "No date or time reference found to analyze inventory trends."
  else if !s.product then
    "No product identifiers found. Please ensure the file contains product or item information."
  else
    "This document does not appear to be related to inventory or sales data."

/-- Stage 1 outcome. -/
inductive ValidationResult where
  | valid (file_type : String) (confidence : String) (explanation : String)
  | invalid (reason : String)
deriving DecidableEq

/-- The wrong-domain rejection reason. -/
def wrongDomainReason : String :=
  "This document does not appear to be related to inventory or sales data."

/-- The content-level tail of `validate_file` / `validate_uploaded_file`
(everything after extraction succeeded). -/
def validate_content (file_type : String) (text : String)
    (columns : List String) (odf : Option DataFrame) : ValidationResult :=
  if detect_rejection_signals text columns then .invalid wrongDomainReason
  else
    let signals := detect_signals text columns
    let hpq := signals.product && signals.quantity
    if signals.total < 2 && !hpq then
      .invalid (generate_rejection_reason signals true)
    else
      let nr := verify_numeric_data odf text
      if !nr.has_numeric then
        .invalid (generate_rejection_reason signals false)
      else
        .valid file_type (calculate_confidence signals nr)
          (generate_explanation signals)

/-- Column labels as extracted from an Excel sheet
(`[str(col).lower() for col in df.columns]`). -/
def extractColumns (df : DataFrame) : List String :=
  df.colNames.map strLowerS

/-- Sampled cell text as extracted from an Excel sheet: for each column the
first five non-null values, stringified and lower-cased. -/
def extractSamples (df : DataFrame) : List String :=
  (List.range df.colNames.length).flatMap (fun i =>
    (((df.rows.map (fun r => r.getD i Cell.null)).filter
        (fun c => !c.isNull)).take 5).map (fun c => strLowerS c.pyStr))

/-- `validate_uploaded_file` on an Excel table, after `pd.read_excel`
succeeded (the byte-decoding boundary). -/
def validate_uploaded_excel (df : DataFrame) : ValidationResult :=
  if df.rows.isEmpty then
    .invalid "The file appears to be empty. Please upload a file with data."
  else
    let columns := extractColumns df
    let text := String.intercalate " " (columns ++ extractSamples df)
    validate_content "excel" text columns (some df)

/-- Whether some column label matches the quantity-signal patterns and has at
least one numeric value (the claim's "numeric quantity column"). -/
def hasNumericQuantityColumn (df : DataFrame) : Bool :=
  df.colNames.any (fun c =>
    anyPat quantitySignalPats (strLower c) && 0 < numericCountCol df c)

end FileValidator

/-! ## Stage 2: `ai/data_sufficiency.py` -/

namespace DataSufficiency

/-- `QUANTITY_PATTERNS`. -/
def quantityPats : List Pat :=
  [pat1 "quantity", pat1 "qty", pat1 "units", pat1 "stock",
   pat1 "inventory", pat1 "sold", pat1 "sales", pat1 "available",
   pat2 "on" "hand", pat1 "count", pat1 "balance", pat2 "current" "stock"]

/-- `PRICE_PATTERNS`. -/
def pricePats : List Pat :=
  [pat1 "price", pat1 "cost", pat1 "revenue", pat1 "total",
   pat1 "amount", pat1 "value", pat1 "msrp", pat1 "retail"]

/-- `find_matching_columns`. -/
def find_matching_columns (df : DataFrame) (pats : List Pat) : List String :=
  df.colNames.filter (fun c => anyPat pats (strLower c))

/-- Outcome of one sufficiency check: pass flag, user-facing message, and the
columns the check retained. -/
structure CheckResult where
  passed : Bool
  message : String
  cols : List String
deriving DecidableEq

/-- The rejection message when quantity-pattern columns exist but none has
usable data. -/
def noMeaningfulDataMsg : String :=
  "Quantity columns exist but contain no meaningful numeric data. All values are either missing or zero."

/-- The price-specific rejection message. -/
def priceOnlyMsg : String :=
  "This file contains price or revenue data but no inventory quantity information."

/-- The generic no-quantity rejection message. -/
def noQuantityMsg : String :=
  "No quantity or inventory count information found. Please upload a file with stock levels or units sold."

/-- `check_quantity_meaning` (the float test `len(valid) > len(df) * 0.3` is
modelled by the exact cross-multiplied form `3 * len(df) < 10 * len(valid)`). -/
def check_quantity_meaning (df : DataFrame) : CheckResult :=
  let quantity_cols := find_matching_columns df quantityPats
  let price_cols := find_matching_columns df pricePats
  let usable := quantity_cols.filter (fun c =>
    let vals := df.colNums c
    !vals.isEmpty && !vals.all (· = 0))
  if usable ≠ [] then ⟨true, "", usable⟩
  else if quantity_cols ≠ [] then ⟨false, noMeaningfulDataMsg, []⟩
  else
    let fb := df.colNames.filter (fun c =>
      !price_cols.contains c &&
      3 * df.nrows < 10 * (df.colNums c).length &&
      0 < (df.colNums c).countP (· ≠ 0))
    if fb ≠ [] then ⟨true, "", fb⟩
    else if price_cols ≠ [] then ⟨false, priceOnlyMsg, []⟩
    else ⟨false, noQuantityMsg, []⟩

/-- The claim's reading of the fallback: no quantity-pattern column qualifies
(none has a non-null, non-all-zero numeric value), yet some non-price column
is more than 30% numeric and not all zero. -/
def claimFallbackApplies (df : DataFrame) : Bool :=
  (find_matching_columns df quantityPats).all (fun c =>
    (df.colNums c).isEmpty || (df.colNums c).all (· = 0)) &&
  df.colNames.any (fun c =>
    !(find_matching_columns df pricePats).contains c &&
    3 * df.nrows < 10 * (df.colNums c).length &&
    0 < (df.colNums c).countP (· ≠ 0))

end DataSufficiency

/-! ## Stage 3: `ai/structure_inference.py` -/

namespace StructureInference

/-- The canonical semantic roles of `ROLE_PATTERNS`. -/
inductive Role where
  | product_id | product_name | date | quantity_sold | quantity
  | current_stock | expiry | price
deriving DecidableEq

/-- `ROLE_PATTERNS`. -/
def rolePats : Role → List Pat
  | .product_id =>
    [pat2 "product" "id", pat2 "item" "id", pat1 "sku", pat1 "barcode",
     pat1 "upc", pat1 "ean", pat1 "article", pat1 "material",
     pat2 "item" "code", pat1 "product", pat1 "item", pat1 "code"]
  | .product_name =>
    [pat2 "product" "name", pat2 "item" "name", pat1 "description",
     pat1 "name", pat1 "title"]
  | .date =>
    [pat1 "date", pat1 "day", pat1 "timestamp", pat1 "time",
     pat2 "transaction" "date", pat2 "sale" "date", pat2 "order" "date",
     pat1 "period", pat1 "month"]
  | .quantity_sold =>
    [pat1 "sold", pat2 "sales" "qty", pat2 "quantity" "sold",
     pat2 "units" "sold", pat2 "qty" "sold"]
  | .quantity =>
    [pat1 "quantity", pat1 "qty", pat1 "units", pat1 "count"]
  | .current_stock =>
    [pat2 "current" "stock", pat1 "stock", pat1 "inventory",
     pat1 "available", pat2 "on" "hand", pat1 "balance"]
  | .expiry =>
    [patPre "expir", pat2 "best" "before", pat2 "shelf" "life",
     (["days", "to", "expir"], false)]
  | .price =>
    [pat1 "price", pat1 "cost", pat1 "value", pat1 "amount",
     pat1 "msrp", pat1 "retail"]

/-- `match_column_to_role`. -/
def match_column_to_role (column_name : String) (role : Role) : Bool :=
  anyPat (rolePats role) (strLower column_name)

/-- The fixed `priority_order` of `infer_column_roles`. -/
def priorityOrder : List Role :=
  [.product_id, .date, .quantity_sold, .quantity,
   .current_stock, .expiry, .product_name, .price]

/-- A role mapping: role/column pairs in insertion order. -/
abbrev RoleMapping := List (Role × String)

/-- Dict lookup on a role mapping. -/
def lookupRole : RoleMapping → Role → Option String
  | [], _ => none
  | (r', c) :: rest, r => if r' = r then some c else lookupRole rest r

/-- One iteration of the role loop in `infer_column_roles`: bind the first
unused column matching the role, except that the `quantity` role is skipped
outright once `quantity_sold` is bound. -/
def inferStep (cols : List String) (st : RoleMapping × List String)
    (role : Role) : RoleMapping × List String :=
  match cols.find? (fun c => !st.2.contains c && match_column_to_role c role) with
  | none => st
  | some c =>
    if role = Role.quantity && (lookupRole st.1 Role.quantity_sold).isSome then
      st
    else (st.1 ++ [(role, c)], c :: st.2)

/-- The role mapping after the priority loop, before the aliasing step. -/
def inferPre (cols : List String) : RoleMapping :=
  (priorityOrder.foldl (inferStep cols) ([], [])).1

/-- `infer_column_roles` (as a function of the column labels, the only part
of the frame it reads). -/
def infer_column_roles (cols : List String) : RoleMapping :=
  let m := inferPre cols
  match lookupRole m Role.quantity_sold, lookupRole m Role.quantity with
  | none, some c => m ++ [(Role.quantity_sold, c)]
  | _, _ => m

/-- `validate_required_roles`. -/
def validate_required_roles (m : RoleMapping) : Bool × String :=
  if (lookupRole m Role.product_id).isNone then
    (false, "Unable to identify a product identifier column. Please ensure your file has a column for product IDs, SKUs, or item codes.")
  else if (lookupRole m Role.quantity).isNone &&
      (lookupRole m Role.quantity_sold).isNone &&
      (lookupRole m Role.current_stock).isNone then
    (false, "Unable to identify a quantity column. Please ensure your file has a column for units, stock levels, or quantities sold.")
  else if (lookupRole m Role.date).isNone then
    (false, "Unable to identify a date column. Please ensure your file has a column for dates or time periods.")
  else (true, "")

/-- Python truthiness on an optional column name (`""` and `None` are falsy,
as in `not product_col` and in `all([...])`). -/
def truthyName : Option String → Option String
  | none => none
  | some s => if s = "" then none else some s

/-- Python `a or b` over optional column names. -/
def pyOrName (a b : Option String) : Option String :=
  match truthyName a with
  | some s => some s
  | none => b

/-- A row of the canonical sales table. -/
structure SalesRow where
  product_id : Cell
  date : Int
  quantity_sold : ℚ
deriving DecidableEq

/-- `prepare_sales_csv` (the written CSV modelled as the row list; `none`
models the `return None` path). -/
def prepare_sales_csv (df : DataFrame) (m : RoleMapping) :
    Option (List SalesRow) :=
  let qcol := pyOrName (lookupRole m Role.quantity_sold)
    (pyOrName (lookupRole m Role.quantity) (lookupRole m Role.current_stock))
  match truthyName (lookupRole m Role.product_id),
      truthyName (lookupRole m Role.date), truthyName qcol with
  | some p, some d, some q =>
    match idxOf p df.colNames, idxOf d df.colNames, idxOf q df.colNames with
    | some pi, some di, some qi =>
      some (df.rows.filterMap (fun r =>
        match (r.getD pi Cell.null).isNull, (r.getD di Cell.null).toDate,
            (r.getD qi Cell.null).toNum with
        | false, some dv, some qv => some ⟨r.getD pi Cell.null, dv, qv⟩
        | _, _, _ => none))
    | _, _, _ => none
  | _, _, _ => none

/-- A row of the canonical product snapshot table. -/
structure ProductRecord where
  product_id : Cell
  current_stock : Int
  days_to_expiry : Int
deriving DecidableEq

/-- The rows of `df` whose product cell compares `==` to `pid`. -/
def rowsFor (df : DataFrame) (pi : Nat) (pid : Cell) : List (List Cell) :=
  df.rows.filter (fun r => Cell.pyEq (r.getD pi Cell.null) pid)

/-- The snapshot record built for one product identifier. -/
def productRecordFor (df : DataFrame) (pi : Nat) (stockIdx expIdx : Option Nat)
    (pid : Cell) : ProductRecord :=
  let prows := rowsFor df pi pid
  let current_stock :=
    match stockIdx with
    | some si =>
      match (prows.filterMap (fun r => (r.getD si Cell.null).toNum)).getLast? with
      | some q => truncInt q
      | none => 100
    | none => 100
  let days_to_expiry :=
    match expIdx with
    | some ei =>
      match (prows.filterMap (fun r => (r.getD ei Cell.null).toNum)).head? with
      | some q => truncInt q
      | none => 30
    | none => 30
  ⟨pid, current_stock, days_to_expiry⟩

/-- `prepare_products_csv`. -/
def prepare_products_csv (df : DataFrame) (m : RoleMapping) :
    Option (List ProductRecord) :=
  let stock_col := pyOrName (lookupRole m Role.current_stock)
    (lookupRole m Role.quantity)
  let expiry_col := lookupRole m Role.expiry
  match truthyName (lookupRole m Role.product_id) with
  | none => none
  | some p =>
    match idxOf p df.colNames with
    | none => none
    | some pi =>
      let stockIdx :=
        match truthyName stock_col with
        | some s => idxOf s df.colNames
        | none => none
      let expIdx :=
        match truthyName expiry_col with
        | some e => idxOf e df.colNames
        | none => none
      let pids := uniqueList (df.rows.map (fun r => r.getD pi Cell.null))
      some (pids.map (productRecordFor df pi stockIdx expIdx))

/-- `validate_analytics_readiness` on the staged tables. -/
def validate_analytics_readiness (sales : List SalesRow)
    (products : List ProductRecord) : Bool × String :=
  if sales.length < 2 then
    (false, "Insufficient sales data to generate meaningful analytics. At least 2 records are required.")
  else if (uniqueList (sales.map (·.date))).length < 2 then
    (false, "Sales data must span at least 2 different dates for trend analysis.")
  else if products.length = 0 then
    (false, "No products identified in the data.")
  else (true, "")

/-- Outcome of `run_analytics_for_product`: the per-product analysis is
abstracted as `analyze : String → Except String A` (an exception becomes
`Except.error`, caught and converted to a failure record). -/
inductive ProdOutcome (A : Type) where
  | ok (product_id : String) (r : A)
  | failed (product_id : String) (error : String)
deriving DecidableEq

/-- `result["success"]`. -/
def ProdOutcome.success {A : Type} : ProdOutcome A → Bool
  | .ok _ _ => true
  | .failed _ _ => false

/-- `run_analytics_for_product`. -/
def run_analytics_for_product {A : Type} (analyze : String → Except String A)
    (pid : String) : ProdOutcome A :=
  match analyze pid with
  | .ok r => .ok pid r
  | .error e => .failed pid e

/-- Result of `run_stage3_analysis`. -/
inductive Stage3Result (A : Type) where
  | error (reason : String)
  | ready (message : String) (products : List (ProdOutcome A))
      (total_products analyzed_products : Nat) (role_mapping : RoleMapping)
deriving DecidableEq

/-- The pre-loop part of `run_stage3_analysis`: all gates up to (and
including) the readiness check, each failure returning its reason. -/
def stage3Prep (df : DataFrame) :
    Except String (List SalesRow × List ProductRecord × RoleMapping) :=
  if df.rows.isEmpty then .error "No data available for analysis."
  else
    let m := infer_column_roles df.colNames
    let v := validate_required_roles m
    if !v.1 then .error v.2
    else
      match prepare_sales_csv df m with
      | none => .error "Unable to prepare sales data for analysis. Required columns may be missing."
      | some sales =>
        match prepare_products_csv df m with
        | none => .error "Unable to prepare product data for analysis."
        | some products =>
          let r := validate_analytics_readiness sales products
          if !r.1 then .error r.2
          else .ok (sales, products, m)

/-- The error message of the zero-successes branch. -/
def noAnalyticsMsg : String :=
  "Unable to generate analytics for any products. The data may contain inconsistencies."

/-- The success message. -/
def readyMsg : String := "Data successfully analyzed. Dashboard generated."

/-- `run_stage3_analysis`: run the gates, then analyze the first ten distinct
product identifiers, keeping only per-product successes. -/
def run_stage3_analysis {A : Type} (analyze : String → Except String A)
    (df : DataFrame) : Stage3Result A :=
  match stage3Prep df with
  | .error reason => .error reason
  | .ok (_, products, m) =>
    let product_ids := products.map (·.product_id)
    let successes := (product_ids.take 10).filterMap (fun pid =>
      let o := run_analytics_for_product analyze pid.pyStr
      if o.success then some o else none)
    if successes.isEmpty then .error noAnalyticsMsg
    else .ready readyMsg successes product_ids.length successes.length m

/-- The distinct product identifiers of the table, as `prepare_products_csv`
observes them via the pipeline's own role mapping. -/
def distinctProductIds (df : DataFrame) : List Cell :=
  match truthyName (lookupRole (infer_column_roles df.colNames)
      Role.product_id) with
  | none => []
  | some p =>
    match idxOf p df.colNames with
    | none => []
    | some pi => uniqueList (df.rows.map (fun r => r.getD pi Cell.null))

end StructureInference

/-! ## Stage 4: `ai/decision_engine.py` -/

namespace DecisionEngine

/-- The forecast fields `make_decision` reads. -/
structure DemandData where
  total_demand : Int
deriving DecidableEq

/-- The risk fields `make_decision` reads (`days_to_stockout` is `None` when
velocity is zero). -/
structure RiskData where
  risk_level : String
  days_to_stockout : Option ℚ
  days_to_expiry : Int
  current_stock : Int
  excess_units : Int
deriving DecidableEq

/-- Supplier terms. -/
structure SupplierInfo where
  lead_time : Int
  min_order : Int
deriving DecidableEq

/-- The decision record. -/
structure Decision where
  decision : String
  quantity : Int
  explanation : String
deriving DecidableEq

/-- `calculate_reorder_quantity` (safety buffer `1.2` as `6/5`). -/
def calculate_reorder_quantity (forecast : Int) (current_stock min_order : Int) :
    Int :=
  let target := pythonRound ((forecast : ℚ) * (6/5))
  let needed := max 0 (target - current_stock)
  if needed = 0 then 0 else max min_order needed

/-- `generate_explanation` of the decision engine (the truthiness test
`if days_to_stockout and ...` treats both `None` and `0.0` as false). -/
def generate_decision_explanation (decision : String) (dts : Option ℚ)
    (days_to_expiry lead_time : Int) (quantity : Int) : String :=
  if decision = "REORDER" then
    match dts with
    | some q =>
      if q ≠ 0 && q < (lead_time : ℚ) + 1 then
        "Stock depletes in " ++ toString (pythonRound q) ++
          " days. Supplier delivers in " ++ toString lead_time ++
          " days. Order now to avoid lost sales."
      else
        "Stock running low. Demand is steady. Reorder " ++ toString quantity ++
          " units to maintain availability."
    | none =>
      "Stock running low. Demand is steady. Reorder " ++ toString quantity ++
        " units to maintain availability."
  else if decision = "DISCOUNT" then
    "Expiry in " ++ toString days_to_expiry ++
      " days. Stock exceeds demand. Discount to reduce waste."
  else
    "Stock levels healthy. No action needed. Next review in 3 days."

/-- `make_decision`. -/
def make_decision (demand : DemandData) (risk : RiskData)
    (supplier : SupplierInfo) : Decision :=
  if risk.risk_level = "HIGH" && risk.excess_units > 0 then
    ⟨"DISCOUNT", risk.excess_units,
     generate_decision_explanation "DISCOUNT" risk.days_to_stockout
       risk.days_to_expiry supplier.lead_time 0⟩
  else
    match risk.days_to_stockout with
    | some dts =>
      if dts ≤ (supplier.lead_time : ℚ) + 2 then
        let q := calculate_reorder_quantity demand.total_demand
          risk.current_stock supplier.min_order
        ⟨"REORDER", q,
         generate_decision_explanation "REORDER" risk.days_to_stockout
           risk.days_to_expiry supplier.lead_time q⟩
      else if (risk.current_stock : ℚ) < (demand.total_demand : ℚ) * (4/5) then
        let q := calculate_reorder_quantity demand.total_demand
          risk.current_stock supplier.min_order
        ⟨"REORDER", q,
         generate_decision_explanation "REORDER" risk.days_to_stockout
           risk.days_to_expiry supplier.lead_time q⟩
      else
        ⟨"WAIT", 0,
         generate_decision_explanation "WAIT" risk.days_to_stockout
           risk.days_to_expiry supplier.lead_time 0⟩
    | none =>
      if (risk.current_stock : ℚ) < (demand.total_demand : ℚ) * (4/5) then
        let q := calculate_reorder_quantity demand.total_demand
          risk.current_stock supplier.min_order
        ⟨"REORDER", q,
         generate_decision_explanation "REORDER" risk.days_to_stockout
           risk.days_to_expiry supplier.lead_time q⟩
      else
        ⟨"WAIT", 0,
         generate_decision_explanation "WAIT" risk.days_to_stockout
           risk.days_to_expiry supplier.lead_time 0⟩

end DecisionEngine

/-! ## List helper lemmas -/

theorem filter_ne_nil_iff {α : Type} (p : α → Bool) (l : List α) :
    l.filter p ≠ [] ↔ ∃ x ∈ l, p x = true := by
  induction l with
  | nil => simp
  | cons a t ih => by_cases h : p a <;> simp [List.filter_cons, h, ih]

theorem filter_eq_nil_of_all {α : Type} (p : α → Bool) (l : List α)
    (h : ∀ x ∈ l, p x = false) : l.filter p = [] := by
  induction l with
  | nil => rfl
  | cons a t ih =>
    simp only [List.filter_cons, h a (by simp)]
    exact ih (fun x hx => h x (by simp [hx]))

theorem filter_eq_self_of_all {α : Type} (p : α → Bool) (l : List α)
    (h : ∀ x ∈ l, p x = true) : l.filter p = l := by
  induction l with
  | nil => rfl
  | cons a t ih =>
    simp only [List.filter_cons, h a (by simp)]
    simp [ih (fun x hx => h x (by simp [hx]))]

/-! ## Claim C1 -/

namespace DecisionEngine

/-- Claim C1: when the risk assessment yields `HIGH` risk with positive excess
units, `make_decision` returns `DISCOUNT` with quantity equal to the excess
units, regardless of the stockout timing (rule 1 precedes rule 2); and when
rule 1 does not apply, a defined stockout horizon at or below
`lead_time + 2` yields `REORDER` (rule 2). -/
theorem c1_discount_priority (demand : DemandData) (risk : RiskData)
    (supplier : SupplierInfo) :
    (risk.risk_level = "HIGH" → 0 < risk.excess_units →
      (make_decision demand risk supplier).decision = "DISCOUNT" ∧
      (make_decision demand risk supplier).quantity = risk.excess_units) ∧
    (¬(risk.risk_level = "HIGH" ∧ 0 < risk.excess_units) →
      ∀ q : ℚ, risk.days_to_stockout = some q →
        q ≤ (supplier.lead_time : ℚ) + 2 →
        (make_decision demand risk supplier).decision = "REORDER") := by
  constructor
  · intro h1 h2
    simp [make_decision, h1, h2]
  · intro h q hq hle
    have hcond : ¬(risk.risk_level = "HIGH" ∧ risk.excess_units > 0) := h
    simp only [make_decision, hq]
    rw [if_neg]
    · simp [hle]
    · simpa using hcond

/-- Witness for C1: a concrete `HIGH`-risk product with 20 excess units and a
stockout horizon well inside the reorder window still gets `DISCOUNT 20`. -/
theorem c1_discount_priority_witness :
    (make_decision ⟨70⟩ ⟨"HIGH", some (1/2), 3, 50, 20⟩ ⟨3, 20⟩).decision =
      "DISCOUNT" ∧
    (make_decision ⟨70⟩ ⟨"HIGH", some (1/2), 3, 50, 20⟩ ⟨3, 20⟩).quantity =
      20 :=
  (c1_discount_priority ⟨70⟩ ⟨"HIGH", some (1/2), 3, 50, 20⟩ ⟨3, 20⟩).1
    rfl (by decide)

end DecisionEngine

/-! ## Claim C7 -/

namespace FileValidator

/-- Claim C7: whenever a disqualifying HR/payroll/personnel pattern matches
the column labels or sampled cell text, Stage 1 returns `invalid` with the
wrong-domain reason, before any acceptance signal is consulted. -/
theorem c7_rejection_priority (ft text : String) (cols : List String)
    (odf : Option DataFrame)
    (h : detect_rejection_signals text cols = true) :
    validate_content ft text cols odf = .invalid wrongDomainReason := by
  simp [validate_content, h]

/-- Witness for C7: a text carrying the `employee` rejection token is refused
with the wrong-domain reason even though all three signal groups and three
numeric tokens are present. -/
theorem c7_rejection_priority_witness :
    validate_content "excel" "employee product units date 1 2 3" [] none =
      .invalid wrongDomainReason ∧
    (detect_signals "employee product units date 1 2 3" []).total = 3 ∧
    (verify_numeric_data none "employee product units date 1 2 3").has_numeric
      = true :=
  ⟨c7_rejection_priority "excel" "employee product units date 1 2 3" [] none
    (by decide), by decide, by decide⟩

/-! ## Claim C8 -/

/-- Counterexample for C8: the text `"5 5 5"` has a single distinct numeric
token, yet the text-only numeric-evidence check passes, because the source
counts token occurrences (`len(re.findall(...)) >= 3`), not distinct
tokens. -/
theorem c8_numeric_tokens_counterexample :
    (verify_numeric_data none "5 5 5").has_numeric = true ∧
    (uniqueList (numTokens "5 5 5".data)).length < 3 := by decide

/-- Claim C8 as amended: for a text-only container the numeric-evidence check
passes exactly when the extracted text contains at least three numeric token
occurrences (not necessarily distinct). -/
theorem c8_numeric_tokens_amended (text : String) :
    (verify_numeric_data none text).has_numeric = true ↔
      3 ≤ (numTokens text.data).length := by
  simp [verify_numeric_data]

end FileValidator

/-! ## Claim C3 -/

namespace DataSufficiency

/-- A table whose only quantity-pattern column is all zeros while a non-price
column is fully numeric and non-zero. -/
def zeroStockFrame : DataFrame :=
  ⟨["stock", "other"],
   [[Cell.val (some (mkRat 0 1)) none "0", Cell.val (some (mkRat 5 1)) none "5"],
    [Cell.val (some (mkRat 0 1)) none "0", Cell.val (some (mkRat 7 1)) none "7"]]⟩

/-- Counterexample for C3: in `zeroStockFrame` no quantity-pattern column
qualifies and a non-price column is more than 30% numeric and non-zero, so
the claim's fallback should pass the gate; the code instead rejects at once
with the no-meaningful-data message, because the fallback only runs when no
quantity-pattern column exists at all. -/
theorem c3_fallback_counterexample :
    claimFallbackApplies zeroStockFrame = true ∧
    check_quantity_meaning zeroStockFrame =
      ⟨false, noMeaningfulDataMsg, []⟩ := by decide

/-- Claim C3 as amended: the fallback scan of non-price columns runs only for
tables with no quantity-pattern column at all, and then passes exactly when
some non-price column is more than 30% numeric with a non-zero value; a table
with quantity-pattern columns none of which qualifies is rejected with the
no-meaningful-data message without falling back; a table all of whose columns
are price/revenue columns (and none quantity) is rejected with the
price-specific message. -/
theorem c3_quantity_fallback_amended (df : DataFrame) :
    (find_matching_columns df quantityPats = [] →
      ((check_quantity_meaning df).passed = true ↔
        ∃ c ∈ df.colNames,
          (find_matching_columns df pricePats).contains c = false ∧
          3 * df.nrows < 10 * (df.colNums c).length ∧
          0 < (df.colNums c).countP (· ≠ 0))) ∧
    ((find_matching_columns df quantityPats ≠ [] ∧
      ∀ c ∈ find_matching_columns df quantityPats,
        (df.colNums c).isEmpty = true ∨ (df.colNums c).all (· = 0) = true) →
      check_quantity_meaning df = ⟨false, noMeaningfulDataMsg, []⟩) ∧
    ((df.colNames ≠ [] ∧
      (∀ c ∈ df.colNames, anyPat pricePats (strLower c) = true) ∧
      (∀ c ∈ df.colNames, anyPat quantityPats (strLower c) = false)) →
      check_quantity_meaning df = ⟨false, priceOnlyMsg, []⟩) := by
  refine ⟨?_, ?_, ?_⟩
  · intro h
    by_cases hfb : df.colNames.filter (fun c =>
        !(find_matching_columns df pricePats).contains c &&
        3 * df.nrows < 10 * (df.colNums c).length &&
        0 < (df.colNums c).countP (· ≠ 0)) = []
    · have hpassed : (check_quantity_meaning df).passed = false := by
        simp only [check_quantity_meaning, h, List.filter_nil, hfb]
        simp only [ne_eq, not_true_eq_false, if_false]
        split <;> rfl
      rw [hpassed]
      simp only [Bool.false_eq_true, false_iff]
      rintro ⟨c, hc, h1, h2, h3⟩
      refine absurd hfb ((filter_ne_nil_iff _ _).mpr ⟨c, hc, ?_⟩)
      simp only [Bool.and_eq_true, Bool.not_eq_true', decide_eq_true_eq]
      exact ⟨⟨h1, h2⟩, h3⟩
    · have hpassed : (check_quantity_meaning df).passed = true := by
        simp only [check_quantity_meaning, h, List.filter_nil]
        rw [if_pos hfb]
        simp
      rw [hpassed]
      simp only [true_iff]
      obtain ⟨c, hc, hpc⟩ := (filter_ne_nil_iff _ _).mp hfb
      simp only [Bool.and_eq_true, Bool.not_eq_true', decide_eq_true_eq] at hpc
      exact ⟨c, hc, hpc.1.1, hpc.1.2, hpc.2⟩
  · rintro ⟨hne, hall⟩
    have husable : (find_matching_columns df quantityPats).filter (fun c =>
        !(df.colNums c).isEmpty && !(df.colNums c).all (· = 0)) = [] := by
      apply filter_eq_nil_of_all
      intro c hc
      rcases hall c hc with h | h <;> simp [h]
    simp only [check_quantity_meaning, husable]
    simp [hne]
  · rintro ⟨hne, hprice, hqnone⟩
    have hq : find_matching_columns df quantityPats = [] :=
      filter_eq_nil_of_all _ _ hqnone
    have hp : find_matching_columns df pricePats = df.colNames :=
      filter_eq_self_of_all _ _ hprice
    have hfb : df.colNames.filter (fun c =>
        !(find_matching_columns df pricePats).contains c &&
        3 * df.nrows < 10 * (df.colNums c).length &&
        0 < (df.colNums c).countP (· ≠ 0)) = [] := by
      apply filter_eq_nil_of_all
      intro c hc
      have hcont : (find_matching_columns df pricePats).contains c = true := by
        rw [hp]
        exact List.elem_eq_true_of_mem hc
      simp only [hcont, Bool.not_true, Bool.false_and]
    have hpne : find_matching_columns df pricePats ≠ [] := by
      rw [hp]
      exact hne
    simp only [check_quantity_meaning, hq, List.filter_nil, hfb]
    simp [hpne]

/-- A table containing only price/revenue columns. -/
def priceOnlyFrame : DataFrame :=
  ⟨["price", "cost"],
   [[Cell.val (some 3) none "3", Cell.val (some 4) none "4"]]⟩

/-- Witness for the amended C3: a price-only table is rejected with the
price-specific distinguishing message. -/
theorem c3_quantity_fallback_amended_witness :
    check_quantity_meaning priceOnlyFrame = ⟨false, priceOnlyMsg, []⟩ :=
  (c3_quantity_fallback_amended priceOnlyFrame).2.2
    ⟨by decide, by decide, by decide⟩

end DataSufficiency

/-! ## Claim C4 -/

namespace StructureInference

/-- A `product_id, date, quantity` table whose single row has a missing
product identifier but a valid date and a numeric quantity. -/
def nullIdFrame : DataFrame :=
  ⟨["product_id", "date", "quantity"],
   [[Cell.null, Cell.val none (some 1) "2024-01-01",
     Cell.val (some (mkRat 5 1)) none "5"]]⟩

/-- Counterexample for C4: in `nullIdFrame` the only row has a parseable date
and a numeric quantity, so by the claim the sales table should contain it;
the code also drops rows whose product identifier is null
(`dropna(subset=["product_id", "date", "quantity_sold"])`), leaving the
sales table empty. -/
theorem c4_roundtrip_counterexample :
    prepare_sales_csv nullIdFrame (infer_column_roles nullIdFrame.colNames) =
      some [] ∧
    (nullIdFrame.rows.filter (fun r =>
      (r.getD 1 Cell.null).toDate.isSome &&
      (r.getD 2 Cell.null).toNum.isSome)).length = 1 := by decide

/-- Claim C4 as amended: for a table with exactly the columns
`product_id, date, quantity`, role inference binds all three canonical roles
(aliasing the quantity column as `quantity_sold`), and the canonical sales
table contains exactly the input rows whose product identifier is non-null,
whose date parses, and whose quantity coerces to a number. -/
theorem c4_roundtrip_amended (df : DataFrame)
    (h : df.colNames = ["product_id", "date", "quantity"]) :
    lookupRole (infer_column_roles df.colNames) Role.product_id =
      some "product_id" ∧
    lookupRole (infer_column_roles df.colNames) Role.date = some "date" ∧
    lookupRole (infer_column_roles df.colNames) Role.quantity =
      some "quantity" ∧
    lookupRole (infer_column_roles df.colNames) Role.quantity_sold =
      some "quantity" ∧
    prepare_sales_csv df (infer_column_roles df.colNames) =
      some (df.rows.filterMap (fun r =>
        match (r.getD 0 Cell.null).isNull, (r.getD 1 Cell.null).toDate,
            (r.getD 2 Cell.null).toNum with
        | false, some dv, some qv => some ⟨r.getD 0 Cell.null, dv, qv⟩
        | _, _, _ => none)) := by
  obtain ⟨cols, rows⟩ := df
  dsimp only at h ⊢
  subst h
  have hm : infer_column_roles ["product_id", "date", "quantity"] =
      [(Role.product_id, "product_id"), (Role.date, "date"),
       (Role.quantity, "quantity"), (Role.quantity_sold, "quantity")] := by
    decide
  simp only [hm]
  exact ⟨rfl, rfl, rfl, rfl, rfl⟩

/-- A well-formed `product_id, date, quantity` table with one valid and one
date-less row. -/
def roundTripFrame : DataFrame :=
  ⟨["product_id", "date", "quantity"],
   [[Cell.val none none "A", Cell.val none (some 1) "2024-01-01",
     Cell.val (some (mkRat 5 1)) none "5"],
    [Cell.val none none "A", Cell.val none none "not-a-date",
     Cell.val (some (mkRat 6 1)) none "6"]]⟩

/-- Witness for the amended C4 at a concrete table. -/
theorem c4_roundtrip_amended_witness :
    lookupRole (infer_column_roles roundTripFrame.colNames) Role.product_id =
      some "product_id" ∧
    lookupRole (infer_column_roles roundTripFrame.colNames) Role.date =
      some "date" ∧
    lookupRole (infer_column_roles roundTripFrame.colNames) Role.quantity =
      some "quantity" ∧
    lookupRole (infer_column_roles roundTripFrame.colNames)
      Role.quantity_sold = some "quantity" ∧
    prepare_sales_csv roundTripFrame
        (infer_column_roles roundTripFrame.colNames) =
      some (roundTripFrame.rows.filterMap (fun r =>
        match (r.getD 0 Cell.null).isNull, (r.getD 1 Cell.null).toDate,
            (r.getD 2 Cell.null).toNum with
        | false, some dv, some qv => some ⟨r.getD 0 Cell.null, dv, qv⟩
        | _, _, _ => none)) :=
  c4_roundtrip_amended roundTripFrame rfl

/-! ## Claim C5 -/

/-- The product identifier stored in a snapshot record. -/
theorem productRecordFor_pid (df : DataFrame) (pi : Nat)
    (si ei : Option Nat) (pid : Cell) :
    (productRecordFor df pi si ei pid).product_id = pid := rfl

/-- Mapping snapshot records back to their identifiers recovers the identifier
list. -/
theorem map_productRecordFor_pid (df : DataFrame) (pi : Nat)
    (si ei : Option Nat) (l : List Cell) :
    (l.map (productRecordFor df pi si ei)).map (·.product_id) = l := by
  induction l with
  | nil => rfl
  | cons a t ih => simp only [List.map_cons, productRecordFor_pid, ih]

/-- What `prepare_products_csv` returns when it succeeds: one snapshot record
per distinct value of the mapped product column, in order of first
occurrence. -/
theorem prepare_products_spec (df : DataFrame) (m : RoleMapping)
    (records : List ProductRecord)
    (h : prepare_products_csv df m = some records) :
    ∃ p pidx, truthyName (lookupRole m Role.product_id) = some p ∧
      idxOf p df.colNames = some pidx ∧
      records = (uniqueList (df.rows.map (fun r => r.getD pidx Cell.null))).map
        (productRecordFor df pidx
          (match truthyName (pyOrName (lookupRole m Role.current_stock)
              (lookupRole m Role.quantity)) with
           | some s => idxOf s df.colNames
           | none => none)
          (match truthyName (lookupRole m Role.expiry) with
           | some e => idxOf e df.colNames
           | none => none)) := by
  unfold prepare_products_csv at h
  cases hp : truthyName (lookupRole m Role.product_id) with
  | none => rw [hp] at h; exact absurd h (by simp)
  | some p =>
    rw [hp] at h
    dsimp only at h
    cases hi : idxOf p df.colNames with
    | none => rw [hi] at h; exact absurd h (by simp)
    | some pidx =>
      rw [hi] at h
      dsimp only at h
      simp only [Option.some_inj] at h
      exact ⟨p, pidx, rfl, hi, h.symm⟩

/-- Claim C5 as amended: the snapshot has exactly one record per distinct
value of the mapped product column (in order of first occurrence);
`current_stock` is the truncation toward zero of the last observed numeric
value of the mapped stock column for that identifier (100 when no stock
column is mapped or no value coerces) and may be negative or truncated;
`days_to_expiry` is the truncation toward zero of the first observed numeric
value of the mapped expiry column (30 when unmappable). -/
theorem c5_snapshot_amended (df : DataFrame) (m : RoleMapping)
    (records : List ProductRecord)
    (h : prepare_products_csv df m = some records) :
    ∃ p pidx, truthyName (lookupRole m Role.product_id) = some p ∧
      idxOf p df.colNames = some pidx ∧
      records.map (·.product_id) =
        uniqueList (df.rows.map (fun r => r.getD pidx Cell.null)) ∧
      ∀ rec ∈ records,
        (rec.current_stock =
          match (match truthyName (pyOrName (lookupRole m Role.current_stock)
              (lookupRole m Role.quantity)) with
            | some s => idxOf s df.colNames
            | none => none) with
          | some si =>
            match ((rowsFor df pidx rec.product_id).filterMap
                (fun r => (r.getD si Cell.null).toNum)).getLast? with
            | some q => truncInt q
            | none => 100
          | none => 100) ∧
        (rec.days_to_expiry =
          match (match truthyName (lookupRole m Role.expiry) with
            | some e => idxOf e df.colNames
            | none => none) with
          | some ei =>
            match ((rowsFor df pidx rec.product_id).filterMap
                (fun r => (r.getD ei Cell.null).toNum)).head? with
            | some q => truncInt q
            | none => 30
          | none => 30) := by
  obtain ⟨p, pidx, hp, hi, hrec⟩ := prepare_products_spec df m records h
  subst hrec
  refine ⟨p, pidx, hp, hi, map_productRecordFor_pid _ _ _ _ _, ?_⟩
  intro rec hrec
  obtain ⟨pid, _, hpid⟩ := List.mem_map.mp hrec
  subst hpid
  exact ⟨rfl, rfl⟩

/-- A table mapping `stock` and `expiry` columns whose single product has a
negative last stock value and a fractional first expiry value. -/
def negStockFrame : DataFrame :=
  ⟨["product_id", "date", "stock", "expiry"],
   [[Cell.val none none "A", Cell.val none (some 1) "d1",
     Cell.val (some (mkRat 3 1)) none "3",
     Cell.val (some (mkRat 5 2)) none "2.5"],
    [Cell.val none none "A", Cell.val none (some 2) "d2",
     Cell.val (some (mkRat (-5) 1)) none "-5",
     Cell.val (some (mkRat 7 1)) none "7"]]⟩

/-- Counterexample for C5: the snapshot record of `negStockFrame` has
`current_stock = -5` (the claim requires an integer `≥ 0`) and
`days_to_expiry = 2` even though the first observed expiry value is `5/2`
(`int()` truncates, so the record is not equal to the observed value). -/
theorem c5_snapshot_counterexample :
    prepare_products_csv negStockFrame
        (infer_column_roles negStockFrame.colNames) =
      some [⟨Cell.val none none "A", -5, 2⟩] ∧
    ((-5 : Int) < 0) ∧
    (negStockFrame.colNums "expiry").head? = some (mkRat 5 2) ∧
    ((2 : ℚ) ≠ mkRat 5 2) := by decide

/-- Witness for the amended C5 at the concrete snapshot of `negStockFrame`. -/
theorem c5_snapshot_amended_witness :
    ∃ p pidx,
      truthyName (lookupRole (infer_column_roles negStockFrame.colNames)
        Role.product_id) = some p ∧
      idxOf p negStockFrame.colNames = some pidx ∧
      ([(⟨Cell.val none none "A", -5, 2⟩ : ProductRecord)].map
        (·.product_id)) =
        uniqueList (negStockFrame.rows.map (fun r => r.getD pidx Cell.null)) ∧
      ∀ rec ∈ [(⟨Cell.val none none "A", -5, 2⟩ : ProductRecord)],
        (rec.current_stock =
          match (match truthyName (pyOrName
              (lookupRole (infer_column_roles negStockFrame.colNames)
                Role.current_stock)
              (lookupRole (infer_column_roles negStockFrame.colNames)
                Role.quantity)) with
            | some s => idxOf s negStockFrame.colNames
            | none => none) with
          | some si =>
            match ((rowsFor negStockFrame pidx rec.product_id).filterMap
                (fun r => (r.getD si Cell.null).toNum)).getLast? with
            | some q => truncInt q
            | none => 100
          | none => 100) ∧
        (rec.days_to_expiry =
          match (match truthyName
              (lookupRole (infer_column_roles negStockFrame.colNames)
                Role.expiry) with
            | some e => idxOf e negStockFrame.colNames
            | none => none) with
          | some ei =>
            match ((rowsFor negStockFrame pidx rec.product_id).filterMap
                (fun r => (r.getD ei Cell.null).toNum)).head? with
            | some q => truncInt q
            | none => 30
          | none => 30) :=
  c5_snapshot_amended negStockFrame
    (infer_column_roles negStockFrame.colNames)
    [⟨Cell.val none none "A", -5, 2⟩] (by decide)

/-! ## Claims C2 and C6 -/

/-- Decidable equality for `Except` results (used to evaluate the pipeline on
concrete tables). -/
instance exceptDecEq {ε α : Type} [DecidableEq ε] [DecidableEq α] :
    DecidableEq (Except ε α) := fun x y =>
  match x, y with
  | .ok a, .ok b =>
    if h : a = b then .isTrue (by rw [h])
    else .isFalse (fun hc => h (Except.ok.inj hc))
  | .error a, .error b =>
    if h : a = b then .isTrue (by rw [h])
    else .isFalse (fun hc => h (Except.error.inj hc))
  | .ok _, .error _ => .isFalse (fun hc => Except.noConfusion hc)
  | .error _, .ok _ => .isFalse (fun hc => Except.noConfusion hc)

/-- The product identifier carried by a per-product outcome. -/
def ProdOutcome.product_id {A : Type} : ProdOutcome A → String
  | .ok p _ => p
  | .failed p _ => p

/-- `run_analytics_for_product` reports the identifier it was given. -/
theorem run_analytics_product_id {A : Type}
    (analyze : String → Except String A) (s : String) :
    (run_analytics_for_product analyze s).product_id = s := by
  unfold run_analytics_for_product
  cases analyze s <;> rfl

/-- `filterMap` only depends on the pointwise behaviour of its function. -/
theorem filterMap_ext {α β : Type} (f g : α → Option β) (l : List α)
    (h : ∀ a, f a = g a) : l.filterMap f = l.filterMap g := by
  induction l with
  | nil => rfl
  | cons a t ih => simp only [List.filterMap_cons, h a, ih]

/-- The per-product wrapper keeps exactly the successful analyses. -/
theorem run_analytics_filter {A : Type}
    (analyze : String → Except String A) (s : String) :
    (let o := run_analytics_for_product analyze s
     if o.success then some o else none) =
    (match analyze s with
     | .ok r => some (ProdOutcome.ok s r)
     | .error _ => none) := by
  cases h : analyze s <;>
    simp [run_analytics_for_product, h, ProdOutcome.success]

/-- The outcomes the claim says survive the per-product loop: of the first
ten distinct identifiers, those whose analysis does not raise, in order. -/
def keptOutcomes {A : Type} (analyze : String → Except String A)
    (pids : List Cell) : List (ProdOutcome A) :=
  (pids.take 10).filterMap (fun pid =>
    match analyze pid.pyStr with
    | .ok r => some (ProdOutcome.ok pid.pyStr r)
    | .error _ => none)

/-- Claim C2: once the run reaches the per-product loop, a product whose
analysis raises is omitted while the others are still analyzed, and the run
returns an error status exactly when zero products succeed. -/
theorem c2_per_product_isolation {A : Type}
    (analyze : String → Except String A) (df : DataFrame)
    (sales : List SalesRow) (products : List ProductRecord) (m : RoleMapping)
    (h : stage3Prep df = .ok (sales, products, m)) :
    (keptOutcomes analyze (products.map (·.product_id)) = [] →
      run_stage3_analysis analyze df = .error noAnalyticsMsg) ∧
    (keptOutcomes analyze (products.map (·.product_id)) ≠ [] →
      run_stage3_analysis analyze df = .ready readyMsg
        (keptOutcomes analyze (products.map (·.product_id)))
        (products.map (·.product_id)).length
        (keptOutcomes analyze (products.map (·.product_id))).length m) := by
  unfold run_stage3_analysis
  rw [h]
  dsimp only
  have he : ((products.map (·.product_id)).take 10).filterMap (fun pid =>
      let o := run_analytics_for_product analyze pid.pyStr
      if o.success then some o else none) =
      keptOutcomes analyze (products.map (·.product_id)) := by
    unfold keptOutcomes
    exact filterMap_ext _ _ _ (fun a => run_analytics_filter analyze a.pyStr)
  rw [he]
  constructor
  · intro h0
    rw [h0]
    rfl
  · intro h0
    rcases hk : keptOutcomes analyze (products.map (·.product_id)) with
      _ | ⟨a, t⟩
    · exact absurd hk h0
    · rw [hk]
      rfl

/-- Inversion of the pre-loop gates: a successful `stage3Prep` pins down the
role mapping and both staged tables. -/
theorem stage3Prep_inv (df : DataFrame) (sales : List SalesRow)
    (products : List ProductRecord) (m : RoleMapping)
    (h : stage3Prep df = .ok (sales, products, m)) :
    m = infer_column_roles df.colNames ∧
    prepare_sales_csv df (infer_column_roles df.colNames) = some sales ∧
    prepare_products_csv df (infer_column_roles df.colNames) =
      some products := by
  unfold stage3Prep at h
  dsimp only at h
  split at h
  · exact absurd h (by simp)
  · split at h
    · exact absurd h (by simp)
    · split at h
      · exact absurd h (by simp)
      · next sales' hs =>
        split at h
        · exact absurd h (by simp)
        · next products' hp =>
          split at h
          · exact absurd h (by simp)
          · simp only [Except.ok.injEq, Prod.mk.injEq] at h
            obtain ⟨h1, h2, h3⟩ := h
            subst h1; subst h2; subst h3
            exact ⟨rfl, hs, hp⟩

/-- A successful `prepare_products_csv` through the pipeline's own role
mapping observes exactly `distinctProductIds`. -/
theorem distinct_eq_of_prepare (df : DataFrame)
    (products : List ProductRecord)
    (h : prepare_products_csv df (infer_column_roles df.colNames) =
      some products) :
    products.map (·.product_id) = distinctProductIds df := by
  obtain ⟨p, pidx, hp, hi, hrec⟩ := prepare_products_spec df _ products h
  subst hrec
  rw [map_productRecordFor_pid]
  unfold distinctProductIds
  rw [hp]
  dsimp only
  rw [hi]

/-- Claim C6: whenever Stage 3 returns a ready report, `total_products` is
the number of distinct product identifiers observed in the table,
`analyzed_products` is at most `min(total_products, 10)`, it equals the
number of reported outcomes, and only the first ten distinct identifiers are
submitted to the decision engine. -/
theorem c6_product_cap {A : Type} (analyze : String → Except String A)
    (df : DataFrame) (msg : String) (ps : List (ProdOutcome A))
    (tot an : Nat) (m : RoleMapping)
    (h : run_stage3_analysis analyze df = .ready msg ps tot an m) :
    tot = (distinctProductIds df).length ∧
    an ≤ min tot 10 ∧
    an = ps.length ∧
    ∀ o ∈ ps, o.product_id ∈
      ((distinctProductIds df).take 10).map Cell.pyStr := by
  unfold run_stage3_analysis at h
  cases hp : stage3Prep df with
  | error r =>
    rw [hp] at h
    exact absurd h (by simp)
  | ok triple =>
    obtain ⟨sales, products, m'⟩ := triple
    rw [hp] at h
    dsimp only at h
    obtain ⟨-, -, hprod⟩ := stage3Prep_inv df sales products m' hp
    have hdist : products.map (·.product_id) = distinctProductIds df :=
      distinct_eq_of_prepare df products hprod
    rcases hE : ((products.map (·.product_id)).take 10).filterMap (fun pid =>
        let o := run_analytics_for_product analyze pid.pyStr
        if o.success then some o else none) with _ | ⟨a, t⟩
    · rw [hE] at h
      exact absurd h (by simp)
    · rw [hE] at h
      simp only [List.isEmpty_cons, Bool.false_eq_true, if_false,
        Stage3Result.ready.injEq] at h
      obtain ⟨-, hps, htot, han, hm⟩ := h
      refine ⟨?_, ?_, ?_, ?_⟩
      · rw [← htot, List.length_map, ← hdist, List.length_map]
      · have hlen : (a :: t).length ≤
            ((products.map (·.product_id)).take 10).length := by
          rw [← hE]
          exact List.length_filterMap_le _ _
        rw [List.length_take] at hlen
        rw [← han, ← htot]
        exact hlen.trans (le_of_eq (Nat.min_comm _ _))
      · rw [← han, ← hps]
      · intro o ho
        rw [← hps] at ho
        rw [← hE] at ho
        obtain ⟨pid, hpid, hf⟩ := List.mem_filterMap.mp ho
        have hpo : o.product_id = pid.pyStr := by
          by_cases hsucc :
              (run_analytics_for_product analyze pid.pyStr).success
          · simp only [hsucc, if_true] at hf
            rw [← Option.some_inj.mp hf]
            exact run_analytics_product_id analyze pid.pyStr
          · simp only [hsucc] at hf
            simp at hf
        rw [hpo]
        rw [hdist] at hpid
        exact List.mem_map.mpr ⟨pid, hpid, rfl⟩

/-- A two-product, two-date sales table. -/
def sampleFrame : DataFrame :=
  ⟨["product_id", "date", "quantity"],
   [[Cell.val none none "A", Cell.val none (some 1) "2024-01-01",
     Cell.val (some (mkRat 5 1)) none "5"],
    [Cell.val none none "A", Cell.val none (some 2) "2024-01-02",
     Cell.val (some (mkRat 6 1)) none "6"],
    [Cell.val none none "B", Cell.val none (some 1) "2024-01-01",
     Cell.val (some (mkRat 7 1)) none "7"],
    [Cell.val none none "B", Cell.val none (some 2) "2024-01-02",
     Cell.val (some (mkRat 8 1)) none "8"]]⟩

/-- An analysis that succeeds on product `A` and raises on product `B`. -/
def sampleAnalyze : String → Except String Nat :=
  fun s => if s = "A" then .ok 0 else .error "Product B not found"

/-- The staged sales table of `sampleFrame`. -/
def sampleSales : List SalesRow :=
  [⟨Cell.val none none "A", 1, mkRat 5 1⟩,
   ⟨Cell.val none none "A", 2, mkRat 6 1⟩,
   ⟨Cell.val none none "B", 1, mkRat 7 1⟩,
   ⟨Cell.val none none "B", 2, mkRat 8 1⟩]

/-- The staged snapshot table of `sampleFrame`. -/
def sampleProducts : List ProductRecord :=
  [⟨Cell.val none none "A", 6, 30⟩, ⟨Cell.val none none "B", 8, 30⟩]

/-- Witness for C2: on `sampleFrame`, product `B`'s failing analysis is
dropped while product `A` is still reported, and the run stays ready. -/
theorem c2_per_product_isolation_witness :
    run_stage3_analysis sampleAnalyze sampleFrame =
      .ready readyMsg [ProdOutcome.ok "A" 0] 2 1
        (infer_column_roles sampleFrame.colNames) := by
  have h := (c2_per_product_isolation sampleAnalyze sampleFrame sampleSales
    sampleProducts (infer_column_roles sampleFrame.colNames)
    (by decide)).2 (by decide)
  exact h.trans (by decide)

/-- Witness for C6 at the `sampleFrame` run. -/
theorem c6_product_cap_witness :
    2 = (distinctProductIds sampleFrame).length ∧
    1 ≤ min 2 10 ∧
    1 = ([ProdOutcome.ok "A" (0 : Nat)]).length ∧
    ∀ o ∈ [ProdOutcome.ok "A" (0 : Nat)], o.product_id ∈
      ((distinctProductIds sampleFrame).take 10).map Cell.pyStr :=
  c6_product_cap sampleAnalyze sampleFrame readyMsg [ProdOutcome.ok "A" 0]
    2 1 (infer_column_roles sampleFrame.colNames) (by decide)

end StructureInference

/-! ## Claim C9 -/

namespace FileValidator

/-- When both the product and the quantity signal are present, at least two
signal groups are present. -/
theorem signals_pq_total (s : Signals) (hq : s.quantity = true)
    (hp : s.product = true) : 2 ≤ s.total := by
  rcases s with ⟨q, t, p⟩
  cases q <;> cases t <;> cases p <;> simp_all [Signals.total]

/-- Claim C9 as amended: every file Stage 1 accepts reports confidence `high`
or `medium`, never `low`; and the tier is `high` exactly when all three
signal groups are present and the numeric-evidence check reported at least
one numeric column (a quantity-labeled numeric column or, failing that, a
fallback column that is more than 30% numeric). -/
theorem c9_confidence_amended (ft text : String) (cols : List String)
    (odf : Option DataFrame) (ft' conf expl : String)
    (h : validate_content ft text cols odf = .valid ft' conf expl) :
    (conf = "high" ∨ conf = "medium") ∧
    (conf = "high" ↔ (detect_signals text cols).total = 3 ∧
      1 ≤ (verify_numeric_data odf text).numeric_columns.length) := by
  unfold validate_content at h
  split at h
  · exact absurd h (by simp)
  · dsimp only at h
    split at h
    · exact absurd h (by simp)
    · next hgate =>
      split at h
      · exact absurd h (by simp)
      · next hnum =>
        simp only [ValidationResult.valid.injEq] at h
        obtain ⟨-, hconf, -⟩ := h
        have hhn : (verify_numeric_data odf text).has_numeric = true := by
          rcases hb : (verify_numeric_data odf text).has_numeric
          · rw [hb] at hnum
            simp at hnum
          · rfl
        have h2 : 2 ≤ (detect_signals text cols).total := by
          by_cases hlt : (detect_signals text cols).total < 2
          · have hpq : (detect_signals text cols).product = true ∧
                (detect_signals text cols).quantity = true := by
              by_contra hno
              apply hgate
              simp only [Bool.and_eq_true, decide_eq_true_eq]
              constructor
              · exact hlt
              · simp only [Bool.not_eq_true', Bool.and_eq_true]
                rcases hb1 : (detect_signals text cols).product
                · rfl
                · rcases hb2 : (detect_signals text cols).quantity
                  · rw [Bool.and_comm]
                    simp [hb2]
                  · exact absurd ⟨hb1, hb2⟩ hno
            exact absurd hlt (Nat.not_lt.mpr
              (signals_pq_total _ hpq.2 hpq.1))
          · exact Nat.not_lt.mp hlt
        subst hconf
        constructor
        · unfold calculate_confidence
          split
          · exact Or.inl rfl
          · rw [if_pos]
            · exact Or.inr rfl
            · simp only [Bool.and_eq_true, decide_eq_true_eq]
              exact ⟨h2, hhn⟩
        · unfold calculate_confidence
          split
          · next hcond =>
            simp only [Bool.and_eq_true, decide_eq_true_eq] at hcond
            simp only [true_iff]
            exact ⟨hcond.1.1, hcond.2⟩
          · next hcond =>
            constructor
            · intro hcontra
              split at hcontra <;> exact absurd hcontra (by decide)
            · rintro ⟨h3, hlen⟩
              exact absurd (by
                simp only [Bool.and_eq_true, decide_eq_true_eq]
                exact ⟨⟨h3, hhn⟩, hlen⟩) hcond

/-- Witness for the amended C9: a text-only upload with all three signal
groups and three numeric tokens is accepted with confidence `medium` (no
numeric column list exists for text-only containers). -/
theorem c9_confidence_amended_witness :
    (("medium" : String) = "high" ∨ ("medium" : String) = "medium") ∧
    (("medium" : String) = "high" ↔
      (detect_signals "product units date 1 2 3" []).total = 3 ∧
      1 ≤ (verify_numeric_data none
        "product units date 1 2 3").numeric_columns.length) :=
  c9_confidence_amended "pdf" "product units date 1 2 3" [] none "pdf"
    "medium" (generate_explanation
      (detect_signals "product units date 1 2 3" [])) (by decide)

/-- A table with product, date and an unlabeled numeric column; the only
quantity-signal evidence is the cell text `units` in the product column. -/
def fallbackFrame : DataFrame :=
  ⟨["product", "date", "misc"],
   [[Cell.val none none "units", Cell.val none (some 1) "2024-01-01",
     Cell.val (some (mkRat 1 1)) none "1"],
    [Cell.val none none "widget", Cell.val none (some 2) "2024-01-02",
     Cell.val (some (mkRat 2 1)) none "2"],
    [Cell.val none none "gadget", Cell.val none (some 3) "2024-01-03",
     Cell.val (some (mkRat 3 1)) none "3"]]⟩

/-- Counterexample for C9: `fallbackFrame` is accepted with confidence
`high` although no numeric quantity column exists — the numeric columns come
from the 30% fallback scan, so `high` does not require a numeric
quantity-labeled column as the claim states. -/
theorem c9_high_confidence_counterexample :
    validate_uploaded_excel fallbackFrame =
      .valid "excel" "high"
        "File contains quantity/stock information, time/date references, and product identifiers suitable for inventory analysis." ∧
    hasNumericQuantityColumn fallbackFrame = false := by decide

end FileValidator

/-! ## Claim C10 -/

namespace StructureInference

theorem lookupRole_append_ne (m : RoleMapping) (r r' : Role) (c : String)
    (h : r' ≠ r) : lookupRole (m ++ [(r', c)]) r = lookupRole m r := by
  induction m with
  | nil => simp [lookupRole, h]
  | cons hd tl ih =>
    obtain ⟨a, b⟩ := hd
    by_cases ha : a = r <;> simp [lookupRole, ha, ih]

theorem lookupRole_append_left (m l : RoleMapping) (r : Role) (c : String)
    (h : lookupRole m r = some c) : lookupRole (m ++ l) r = some c := by
  induction m with
  | nil => simp [lookupRole] at h
  | cons hd tl ih =>
    obtain ⟨a, b⟩ := hd
    by_cases ha : a = r
    · simp only [lookupRole, ha, if_pos rfl] at h ⊢
      exact h
    · simp only [List.cons_append, lookupRole, if_neg ha] at h ⊢
      exact ih h

theorem lookupRole_append_right (m : RoleMapping) (r : Role) (c : String)
    (h : lookupRole m r = none) : lookupRole (m ++ [(r, c)]) r = some c := by
  induction m with
  | nil => simp [lookupRole]
  | cons hd tl ih =>
    obtain ⟨a, b⟩ := hd
    by_cases ha : a = r
    · simp only [lookupRole, ha, if_pos rfl] at h
      exact absurd h (by simp)
    · simp only [List.cons_append, lookupRole, if_neg ha] at h ⊢
      exact ih h

/-- One role-binding step either leaves the mapping unchanged or appends a
binding for exactly the role being processed. -/
theorem inferStep_shape (cols : List String) (st : RoleMapping × List String)
    (role : Role) :
    (inferStep cols st role).1 = st.1 ∨
    ∃ c, (inferStep cols st role).1 = st.1 ++ [(role, c)] := by
  unfold inferStep
  split
  · exact Or.inl rfl
  · split
    · exact Or.inl rfl
    · exact Or.inr ⟨_, rfl⟩

theorem inferStep_notmem (cols : List String) (st : RoleMapping × List String)
    (role r : Role) (h : r ≠ role) :
    lookupRole (inferStep cols st role).1 r = lookupRole st.1 r := by
  rcases inferStep_shape cols st role with h1 | ⟨c, h1⟩
  · rw [h1]
  · rw [h1, lookupRole_append_ne _ _ _ _ (Ne.symm h)]

theorem inferStep_isSome (cols : List String) (st : RoleMapping × List String)
    (role r : Role) (h : (lookupRole st.1 r).isSome = true) :
    (lookupRole (inferStep cols st role).1 r).isSome = true := by
  rcases inferStep_shape cols st role with h1 | ⟨c, h1⟩
  · rw [h1]; exact h
  · obtain ⟨cc, hcc⟩ := Option.isSome_iff_exists.mp h
    rw [h1, lookupRole_append_left _ _ _ _ hcc]
    rfl

/-- Once `quantity_sold` is bound, the `quantity` step binds nothing. -/
theorem inferStep_qskip (cols : List String) (st : RoleMapping × List String)
    (h : (lookupRole st.1 Role.quantity_sold).isSome = true) :
    inferStep cols st Role.quantity = st := by
  unfold inferStep
  split
  · rfl
  · simp [h]

theorem foldl_lookup_notmem (cols : List String) (roles : List Role)
    (st : RoleMapping × List String) (r : Role) (h : r ∉ roles) :
    lookupRole ((roles.foldl (inferStep cols) st)).1 r =
      lookupRole st.1 r := by
  induction roles generalizing st with
  | nil => rfl
  | cons a t ih =>
    simp only [List.mem_cons, not_or] at h
    rw [List.foldl_cons, ih _ h.2, inferStep_notmem _ _ _ _ h.1]

/-- Claim C10: role inference never binds `quantity` and `quantity_sold` to
two different columns — once `quantity_sold` is bound by its own patterns the
`quantity` role is left unbound, so the two roles can only coincide (via
aliasing) or `quantity` is absent. -/
theorem c10_quantity_roles_invariant (cols : List String) :
    ((lookupRole (inferPre cols) Role.quantity_sold).isSome = true →
      lookupRole (infer_column_roles cols) Role.quantity = none) ∧
    (∀ c c', lookupRole (infer_column_roles cols) Role.quantity = some c →
      lookupRole (infer_column_roles cols) Role.quantity_sold = some c' →
      c = c') := by
  have hqsPre : lookupRole (inferPre cols) Role.quantity_sold =
      lookupRole (([Role.product_id, Role.date, Role.quantity_sold].foldl
        (inferStep cols) ([], []))).1 Role.quantity_sold := by
    show lookupRole (([Role.current_stock, Role.expiry, Role.product_name,
        Role.price].foldl (inferStep cols)
        (inferStep cols
          ([Role.product_id, Role.date, Role.quantity_sold].foldl
            (inferStep cols) ([], [])) Role.quantity))).1
        Role.quantity_sold = _
    rw [foldl_lookup_notmem _ _ _ _ (by decide)]
    exact inferStep_notmem _ _ _ _ (by decide)
  have hq3 : lookupRole (([Role.product_id, Role.date,
      Role.quantity_sold].foldl (inferStep cols) ([], []))).1
      Role.quantity = none := by
    rw [foldl_lookup_notmem _ _ _ _ (by decide)]
    rfl
  have key : (lookupRole (([Role.product_id, Role.date,
      Role.quantity_sold].foldl (inferStep cols) ([], []))).1
        Role.quantity_sold).isSome = true →
      lookupRole (inferPre cols) Role.quantity = none := by
    intro h
    show lookupRole (([Role.current_stock, Role.expiry, Role.product_name,
        Role.price].foldl (inferStep cols)
        (inferStep cols
          ([Role.product_id, Role.date, Role.quantity_sold].foldl
            (inferStep cols) ([], [])) Role.quantity))).1
        Role.quantity = none
    rw [foldl_lookup_notmem _ _ _ _ (by decide), inferStep_qskip _ _ h, hq3]
  constructor
  · intro h
    have h3 := hqsPre ▸ h
    have hqnone := key h3
    obtain ⟨d, hd⟩ := Option.isSome_iff_exists.mp h
    unfold infer_column_roles
    dsimp only
    rw [hd, hqnone]
  · intro c c' hc hc'
    by_cases hqs : (lookupRole (inferPre cols) Role.quantity_sold).isSome =
        true
    · have h3 := hqsPre ▸ hqs
      have hqnone := key h3
      obtain ⟨d, hd⟩ := Option.isSome_iff_exists.mp hqs
      unfold infer_column_roles at hc
      dsimp only at hc
      rw [hd, hqnone] at hc
      exact Option.noConfusion hc
    · have hqsn : lookupRole (inferPre cols) Role.quantity_sold = none := by
        rcases hh : lookupRole (inferPre cols) Role.quantity_sold
        · rfl
        · rw [hh] at hqs
          exact absurd rfl hqs
      unfold infer_column_roles at hc hc'
      dsimp only at hc hc'
      rw [hqsn] at hc hc'
      cases hq : lookupRole (inferPre cols) Role.quantity with
      | none =>
        rw [hq] at hc
        dsimp only at hc
        rw [hq] at hc
        exact Option.noConfusion hc
      | some d =>
        rw [hq] at hc hc'
        dsimp only at hc hc'
        rw [lookupRole_append_ne _ _ _ _ (by decide)] at hc
        rw [hq] at hc
        rw [lookupRole_append_right _ _ _ hqsn] at hc'
        rw [← Option.some_inj.mp hc, ← Option.some_inj.mp hc']

/-- Witness for C10: with columns `units sold, quantity, product`, the
`quantity_sold` role is bound first and the `quantity` column is left
unbound. -/
theorem c10_quantity_roles_invariant_witness :
    lookupRole (infer_column_roles ["units sold", "quantity", "product"])
      Role.quantity = none :=
  (c10_quantity_roles_invariant ["units sold", "quantity", "product"]).1
    (by decide)

end StructureInference

end StockIQ
